import Mathlib

/-!
Design-pattern examples.

A shallow embedding of the example programs of the repository:

* `3- Factories/main.cpp`: the `Car` hierarchy and `CarFactory::createCar`;
* `2- Builder/Fluent Builder Construction/main.cpp`: the product `Car` and
  the fluent `CarBuilder`;
* `5- Singleton/Singleton.cpp`: the class `SingleTon` with its instance counter;
* `1- Single Responsibility Principle/main.cpp`: `Library` and its managers;
* `3- Liskov Substitution Principle/main.cpp`: `Shape`, `Rectangle`, `Square`;
* `5- Dependency Inversion Principle/main.cpp`: `BusinessLogic` and the
  injected `DatabaseInterface`.

Conventions of the embedding.

* `std::cout` is a `String` holding everything written so far; a function
  that prints takes the stream and returns the extended stream.
* `std::endl` appends the newline character (the flush has no effect on the
  text written).
* `std::unique_ptr<Car>` is `Option`: `nullptr` is `none`.
* A member function that mutates `*this` takes the object and returns its
  new value.
* `int` fields are `Int`; the programs do no arithmetic on them beyond
  counting instances up and down by one.
* `double` is `Float`; nothing proved here depends on rounding.
* A call of `exit` ends the run with a status instead of returning.
-/

/-- The stream manipulator `std::endl`: terminates the current line. -/
def endl (os : String) : String := os ++ "\n"

/-! ## Factory (`3- Factories/main.cpp`) -/

namespace Factories

/-- The dynamic type of an object behind the abstract base class `Car`:
one constructor per derived class. The derived classes have no data members. -/
inductive Car where
  | RaceCar
  | OffRoadCar
  | TownCar
  deriving DecidableEq, Repr

/-- Virtual `Car::drive()`, dispatched on the dynamic type; each override
writes one line to `std::cout`. -/
def Car.drive (this : Car) (cout : String) : String :=
  match this with
  | .RaceCar => endl (cout ++ "Driving a race car!")
  | .OffRoadCar => endl (cout ++ "Driving an off-road car!")
  | .TownCar => endl (cout ++ "Driving a town car!")

/-- Static `CarFactory::createCar(const std::string& carType)`. -/
def CarFactory.createCar (carType : String) : Option Car :=
  if carType = "RaceCar" then
    some Car.RaceCar
  else if carType = "OffRoadCar" then
    some Car.OffRoadCar
  else if carType = "TownCar" then
    some Car.TownCar
  else
    none -- Invalid car type

end Factories

/-! ## Fluent Builder (`2- Builder/Fluent Builder Construction/main.cpp`) -/

namespace Builder

/-- Product class `Car`: its four private data members. A default-constructed
`std::string` is empty and `year_` has the member initialiser `= 0`. -/
structure Car where
  make_ : String := ""
  model_ : String := ""
  year_ : Int := 0
  color_ : String := ""
  deriving DecidableEq, Repr

/-- Member `void Car::setMake(const std::string& make)`. -/
def Car.setMake (this : Car) (make : String) : Car := { this with make_ := make }

/-- Member `void Car::setModel(const std::string& model)`. -/
def Car.setModel (this : Car) (model : String) : Car := { this with model_ := model }

/-- Member `void Car::setYear(int year)`. -/
def Car.setYear (this : Car) (year : Int) : Car := { this with year_ := year }

/-- Member `void Car::setColor(const std::string& color)`. -/
def Car.setColor (this : Car) (color : String) : Car := { this with color_ := color }

/-- Member `void Car::describe() const`: five output statements. The result is
the object after the call together with the stream after the call. -/
def Car.describe (this : Car) (cout : String) : Car × String :=
  let cout := endl (cout ++ "Car Details:")
  let cout := endl (cout ++ "Make: " ++ this.make_)
  let cout := endl (cout ++ "Model: " ++ this.model_)
  let cout := endl (cout ++ "Year: " ++ toString this.year_)
  let cout := endl (cout ++ "Color: " ++ this.color_)
  (this, cout)

/-- Class `CarBuilder`: its only data member is the car under construction. -/
structure CarBuilder where
  car_ : Car := {}
  deriving DecidableEq, Repr

/-- Member `CarBuilder& CarBuilder::setMake(const std::string& make)`: the
value of `*this` after the call, which is also the object the returned
reference denotes. -/
def CarBuilder.setMake (this : CarBuilder) (make : String) : CarBuilder :=
  { this with car_ := this.car_.setMake make }

/-- Member `CarBuilder& CarBuilder::setModel(const std::string& model)`. -/
def CarBuilder.setModel (this : CarBuilder) (model : String) : CarBuilder :=
  { this with car_ := this.car_.setModel model }

/-- Member `CarBuilder& CarBuilder::setYear(int year)`. -/
def CarBuilder.setYear (this : CarBuilder) (year : Int) : CarBuilder :=
  { this with car_ := this.car_.setYear year }

/-- Member `CarBuilder& CarBuilder::setColor(const std::string& color)`. -/
def CarBuilder.setColor (this : CarBuilder) (color : String) : CarBuilder :=
  { this with car_ := this.car_.setColor color }

/-- Member `Car CarBuilder::build()`: the returned copy of `car_` together with
the builder after the call. -/
def CarBuilder.build (this : CarBuilder) : Car × CarBuilder :=
  (this.car_, this)

/-- The object `car1` of `main`: built by the chain
`CarBuilder().setMake("Toyota").setModel("Camry").setYear(2023).setColor("Blue").build()`. -/
def car1 : Car :=
  ((((({} : CarBuilder).setMake "Toyota").setModel "Camry").setYear 2023).setColor "Blue").build.1

/-- The object `car2` of `main`. -/
def car2 : Car :=
  ((((({} : CarBuilder).setMake "BMW").setModel "X6").setYear 2024).setColor "Black").build.1

/-! ### Sequences of setter calls -/

/-- The four data members a setter can target. -/
inductive Field where
  | make
  | model
  | year
  | color
  deriving DecidableEq, Repr

/-- One setter call on a builder: which setter, and its argument. -/
inductive Setter where
  | setMake (make : String)
  | setModel (model : String)
  | setYear (year : Int)
  | setColor (color : String)
  deriving DecidableEq, Repr

/-- The data member a setter call targets. -/
def Setter.field : Setter → Field
  | .setMake _ => .make
  | .setModel _ => .model
  | .setYear _ => .year
  | .setColor _ => .color

/-- Performs one setter call on a builder. -/
def CarBuilder.call (this : CarBuilder) : Setter → CarBuilder
  | .setMake make => this.setMake make
  | .setModel model => this.setModel model
  | .setYear year => this.setYear year
  | .setColor color => this.setColor color

/-- Performs a sequence of setter calls on a builder, first call first. -/
def CarBuilder.run (this : CarBuilder) (calls : List Setter) : CarBuilder :=
  calls.foldl CarBuilder.call this

/-- The argument of a `setMake` call, nothing for another setter. -/
def Setter.make? : Setter → Option String
  | .setMake make => some make
  | _ => none

/-- The argument of a `setModel` call, nothing for another setter. -/
def Setter.model? : Setter → Option String
  | .setModel model => some model
  | _ => none

/-- The argument of a `setYear` call, nothing for another setter. -/
def Setter.year? : Setter → Option Int
  | .setYear year => some year
  | _ => none

/-- The argument of a `setColor` call, nothing for another setter. -/
def Setter.color? : Setter → Option String
  | .setColor color => some color
  | _ => none

/-- Specification side: the value passed by the last call of the sequence that
satisfies the selector `sel`, found by scanning the sequence from its end. -/
def lastSet {α : Type} (sel : Setter → Option α) (calls : List Setter) : Option α :=
  calls.reverse.findSome? sel

/-- Specification side: the car the claim "last write wins per field, default
otherwise" describes for a sequence of calls on a fresh builder. -/
def lastWriteCar (calls : List Setter) : Car :=
  { make_ := (lastSet Setter.make? calls).getD ""
    model_ := (lastSet Setter.model? calls).getD ""
    year_ := (lastSet Setter.year? calls).getD 0
    color_ := (lastSet Setter.color? calls).getD "" }

/-! ### Builders behind references -/

/-- An object store: the builder object living at each address. -/
abbrev Store := Nat → CarBuilder

/-- A setter call `obj.setX(v)` where `obj` denotes the builder at address
`this`: the body updates that object in the store, and `return *this` yields a
reference to the same address. -/
def CarBuilder.callRef (σ : Store) (this : Nat) (s : Setter) : Store × Nat :=
  (Function.update σ this ((σ this).call s), this)

/-- The chained expression `obj.s₁.s₂.s₃`: each call is made on the reference
returned by the call before it. -/
def chained (σ : Store) (obj : Nat) (s₁ s₂ s₃ : Setter) : Store × Nat :=
  let r₁ := CarBuilder.callRef σ obj s₁
  let r₂ := CarBuilder.callRef r₁.1 r₁.2 s₂
  CarBuilder.callRef r₂.1 r₂.2 s₃

/-- The three statements `obj.s₁; obj.s₂; obj.s₃;`: each call is made on `obj`
and the returned reference is discarded. -/
def sequential (σ : Store) (obj : Nat) (s₁ s₂ s₃ : Setter) : Store :=
  let σ₁ := (CarBuilder.callRef σ obj s₁).1
  let σ₂ := (CarBuilder.callRef σ₁ obj s₂).1
  (CarBuilder.callRef σ₂ obj s₃).1

end Builder

/-! ## Singleton (`5- Singleton/Singleton.cpp`) -/

namespace Singleton

/-- The macro `ERROR_404`. -/
def ERROR_404 : Int := 404

/-- The part of the process state the example touches: the static data member
`SingleTon::Instances` (initialised to 0) and the text written to `std::cout`
and `std::cerr`. -/
structure World where
  Instances : Int := 0
  cout : String := ""
  cerr : String := ""
  deriving DecidableEq, Repr

/-- The non-static data members of class `SingleTon`. -/
structure SingleTon where
  elem1 : Int
  elem2 : Int
  deriving DecidableEq, Repr

/-- How a piece of code ends: it returns to its caller with a value, or the
process terminates in `exit` with a status. -/
inductive Outcome (α : Type) where
  | returned (value : α) (w : World)
  | exited (status : Nat) (w : World)
  deriving DecidableEq, Repr

/-- Destructor `SingleTon::~SingleTon()`. -/
def SingleTon.destructor (_this : SingleTon) (w : World) : World :=
  let w : World := { w with cout := endl (w.cout ++ "Instance destroyed.") }
  { w with Instances := w.Instances - 1 }

/-- Constructor `SingleTon::SingleTon()`. The `try` block either completes or
throws an `int` (kept with the state at the throw); the handler
`catch (const int)` runs the destructor on the object under construction and
calls `exit(69)`, which does not return. -/
def SingleTon.constructor (w : World) : Outcome SingleTon :=
  let this : SingleTon := { elem1 := 0, elem2 := 0 }
  let w : World := { w with Instances := w.Instances + 1 }
  let tried : Except (Int × World) World :=
    if w.Instances > 1 then
      let w : World := { w with
        cerr := endl (w.cerr ++ "Error: Only one instance of SingleTon is allowed.") }
      Except.error (ERROR_404, w)
    else
      let w : World := { w with
        cout := endl (w.cout ++ "Instance created. Instances: " ++ toString w.Instances) }
      Except.ok w
  match tried with
  | Except.error (_, w) =>
    let w := this.destructor w
    Outcome.exited 69 w
  | Except.ok w => Outcome.returned this w

/-- Member `void SingleTon::Set_1(int val)`. -/
def SingleTon.Set_1 (this : SingleTon) (val : Int) : SingleTon := { this with elem1 := val }

/-- Member `void SingleTon::Set_2(int val)`. -/
def SingleTon.Set_2 (this : SingleTon) (val : Int) : SingleTon := { this with elem2 := val }

/-- Member `void SingleTon::Get_1() const`. -/
def SingleTon.Get_1 (this : SingleTon) (w : World) : World :=
  { w with cout := endl (w.cout ++ "elem1 = " ++ toString this.elem1) }

/-- Member `void SingleTon::Get_2() const`. -/
def SingleTon.Get_2 (this : SingleTon) (w : World) : World :=
  { w with cout := endl (w.cout ++ "elem2 = " ++ toString this.elem2) }

/-- Member `void SingleTon::Get_ctr() const`. -/
def SingleTon.Get_ctr (_this : SingleTon) (w : World) : World :=
  { w with cout := endl (w.cout ++ "Instances = " ++ toString w.Instances) }

/-- The function `main`: the exit status of the process and the final state.
The two `getchar()` calls read and discard a character and do not touch the
state. On the normal path `return 0` destroys `second`, then `first`. -/
def main (w : World) : Nat × World :=
  match SingleTon.constructor w with
  | Outcome.exited status w => (status, w)
  | Outcome.returned first w =>
    let w := first.Get_1 w
    let w := first.Get_2 w
    let w : World := { w with cout := endl (w.cout ++ "Before Exception") }
    match SingleTon.constructor w with
    | Outcome.exited status w => (status, w)
    | Outcome.returned second w =>
      let w := second.Get_1 w
      let w := second.Get_2 w
      let w : World := { w with cout := endl (w.cout ++ "After Exception") }
      let w := second.destructor w
      let w := first.destructor w
      (0, w)

/-! ### Runs of constructions and destructions -/

/-- The copy constructor `SingleTon(const SingleTon&)`. The class declares none
and deletes none, so the compiler generates it: it copies `elem1` and `elem2`
from the source object and does nothing else; in particular it does not touch
`Instances`. -/
def SingleTon.copyConstructor (other : SingleTon) (w : World) : Outcome SingleTon :=
  let this : SingleTon := { elem1 := other.elem1, elem2 := other.elem2 }
  Outcome.returned this w

/-- One event in the life of a client program: a `SingleTon` object is
constructed with the constructor `SingleTon()`, one is constructed as a copy of
the most recently constructed live object, or the most recently constructed
live object is destroyed. -/
inductive Op where
  | construct
  | copy
  | destroy
  deriving DecidableEq, Repr

/-- A running program: the process state and the live `SingleTon` objects,
most recently constructed first. -/
structure Sys where
  w : World := {}
  live : List SingleTon := []
  deriving DecidableEq, Repr

/-- Where a run stands: still running, terminated by `exit`, or not a run at
all because it copies or destroys an object that does not exist. -/
inductive Run where
  | running (s : Sys)
  | terminated (status : Nat) (w : World)
  | invalid
  deriving DecidableEq, Repr

/-- One event applied to a running program. -/
def step (s : Sys) : Op → Run
  | Op.construct =>
    match SingleTon.constructor s.w with
    | Outcome.returned obj w => Run.running { w := w, live := obj :: s.live }
    | Outcome.exited status w => Run.terminated status w
  | Op.copy =>
    match s.live with
    | [] => Run.invalid
    | other :: _ =>
      match SingleTon.copyConstructor other s.w with
      | Outcome.returned obj w => Run.running { w := w, live := obj :: s.live }
      | Outcome.exited status w => Run.terminated status w
  | Op.destroy =>
    match s.live with
    | [] => Run.invalid
    | obj :: rest => Run.running { w := obj.destructor s.w, live := rest }

/-- A sequence of events applied in order; nothing happens after termination. -/
def run : Run → List Op → Run
  | r, [] => r
  | Run.running s, op :: ops => run (step s op) ops
  | Run.terminated status w, _ :: _ => Run.terminated status w
  | Run.invalid, _ :: _ => Run.invalid

/-- The counter agrees with the live objects, of which there is at most one. -/
def Counted (s : Sys) : Prop :=
  s.w.Instances = s.live.length ∧ s.live.length ≤ 1

end Singleton

/-! ## Single Responsibility (`1- SOLID Design Prenciples/1- Single Responsibility Principle/main.cpp`) -/

namespace SingleResponsibility

/-- `std::vector<std::string>::push_back`: the new element becomes the last. -/
def push_back (v : List String) (x : String) : List String := v ++ [x]

/-- `std::vector<std::string>::pop_back`: removes the last element. The call
requires a non-empty vector; on an empty one the behaviour is undefined, which
is `none` here. -/
def pop_back (v : List String) : Option (List String) :=
  match v with
  | [] => none
  | _ :: _ => some v.dropLast

/-- Class `Library`: a data container. -/
structure Library where
  Section : String
  entries : List String
  deriving DecidableEq, Repr

/-- Constructor `Library(const std::string& section) : Section(section) {}`;
`entries` is default-constructed, empty. -/
def Library.constructor (section_ : String) : Library :=
  { Section := section_, entries := [] }

/-- Class `LibraryManager`; `ManagerID` is a `uint16_t`. -/
structure LibraryManager where
  ManagerName : String
  ManagerID : Nat
  deriving DecidableEq, Repr

/-- Constructor `LibraryManager(const std::string Manager_Name, const uint16_t
Manager_ID)`; the argument is converted to `uint16_t` at the call. -/
def LibraryManager.constructor (Manager_Name : String) (Manager_ID : Nat) : LibraryManager :=
  { ManagerName := Manager_Name, ManagerID := Manager_ID % 2 ^ 16 }

/-- Member `void LibraryManager::add_book(Library& Lib, const std::string
BookName)`. The function-local `static int count` is passed in and returned
next to the library. -/
def LibraryManager.add_book (_this : LibraryManager) (count : Int) (Lib : Library)
    (BookName : String) : Int × Library :=
  let Lib : Library := { Lib with entries := push_back Lib.entries BookName }
  let count := count + 1
  (count, Lib)

/-- Member `void LibraryManager::remove_last_book(Library& Lib)`. The test
`if(&Lib)` takes the address of the object a reference is bound to, which is
never null, so the body always runs. -/
def LibraryManager.remove_last_book (_this : LibraryManager) (Lib : Library) : Option Library :=
  match pop_back Lib.entries with
  | none => none
  | some entries => some { Lib with entries := entries }

/-- The files written so far: name and content, for each file. -/
abbrev Files := List (String × String)

/-- Class `LibraryDataFileManager`; `FileID` is a `uint16_t`. -/
structure LibraryDataFileManager where
  FileID : Nat
  deriving DecidableEq, Repr

/-- Member `void LibraryDataFileManager::SaveFileData(const Library& Lib, const
std::string LibraryName)`: opens the file, which truncates it, and writes the
section and then one line per entry. -/
def LibraryDataFileManager.SaveFileData (_this : LibraryDataFileManager) (files : Files)
    (Lib : Library) (LibraryName : String) : Files :=
  let ofs := endl ("" ++ Lib.Section)
  let ofs := Lib.entries.foldl (fun ofs l => endl (ofs ++ l)) ofs
  (files.filter fun f => f.1 ≠ LibraryName) ++ [(LibraryName, ofs)]

/-- The local variables of `main`, the static `count` of `add_book`, the text
written to `std::cout` and the files written. -/
structure MainState where
  BiologyLibrary : Library
  MechanicsLibrary : Library
  EgyptologyLibrary : Library
  count : Int
  cout : String
  files : Files
  deriving DecidableEq, Repr

/-- The three output statements of `main` that report the sizes. -/
def printSizes (st : MainState) : MainState :=
  let cout := endl (st.cout ++ "There are " ++ toString st.BiologyLibrary.entries.length
    ++ " books in Biology Library")
  let cout := endl (cout ++ "There are " ++ toString st.MechanicsLibrary.entries.length
    ++ " books in Mechanics Library")
  let cout := endl (cout ++ "There are " ++ toString st.EgyptologyLibrary.entries.length
    ++ " books in Egyptology Library")
  { st with cout := cout }

/-- The three `SaveFileData` statements of `main`. -/
def saveAll (FileManager : LibraryDataFileManager) (st : MainState) : MainState :=
  let files := FileManager.SaveFileData st.files st.BiologyLibrary "Biology Section.txt"
  let files := FileManager.SaveFileData files st.MechanicsLibrary "Mechanics Section.txt"
  let files := FileManager.SaveFileData files st.EgyptologyLibrary "Egyptology Section.txt"
  { st with files := files }

/-- The function `main` up to the first `getchar()`: the nine `add_book` calls,
the report of the sizes and the first save. -/
def mainAdds : MainState :=
  let BiologyLibrary := Library.constructor "Biology"
  let MechanicsLibrary := Library.constructor "Mechanics"
  let EgyptologyLibrary := Library.constructor "Egyptology"
  let TheLibraryManager := LibraryManager.constructor "Books & Sections Manager" 6969
  let FileManager : LibraryDataFileManager := { FileID := 69 }
  let count : Int := 0
  let (count, BiologyLibrary) := TheLibraryManager.add_book count BiologyLibrary "Book 1 in Biology"
  let (count, BiologyLibrary) := TheLibraryManager.add_book count BiologyLibrary "Book 2 in Biology"
  let (count, BiologyLibrary) := TheLibraryManager.add_book count BiologyLibrary "Book 3 in Biology"
  let (count, MechanicsLibrary) :=
    TheLibraryManager.add_book count MechanicsLibrary "Book 1 in Mechanics"
  let (count, MechanicsLibrary) :=
    TheLibraryManager.add_book count MechanicsLibrary "Book 2 in Mechanics"
  let (count, MechanicsLibrary) :=
    TheLibraryManager.add_book count MechanicsLibrary "Book 3 in Mechanics"
  let (count, EgyptologyLibrary) :=
    TheLibraryManager.add_book count EgyptologyLibrary "Book 1 in Egyptology"
  let (count, EgyptologyLibrary) :=
    TheLibraryManager.add_book count EgyptologyLibrary "Book 2 in Egyptology"
  let (count, EgyptologyLibrary) :=
    TheLibraryManager.add_book count EgyptologyLibrary "Book 3 in Egyptology"
  let st : MainState :=
    { BiologyLibrary := BiologyLibrary, MechanicsLibrary := MechanicsLibrary,
      EgyptologyLibrary := EgyptologyLibrary, count := count, cout := "", files := [] }
  saveAll FileManager (printSizes st)

/-- The whole function `main`: after the first `getchar()` the last book is
removed from the Biology and the Egyptology library, the sizes are reported and
the files are saved again. -/
def main : Option MainState :=
  let TheLibraryManager := LibraryManager.constructor "Books & Sections Manager" 6969
  let FileManager : LibraryDataFileManager := { FileID := 69 }
  let st := mainAdds
  match TheLibraryManager.remove_last_book st.BiologyLibrary with
  | none => none
  | some BiologyLibrary =>
    match TheLibraryManager.remove_last_book st.EgyptologyLibrary with
    | none => none
    | some EgyptologyLibrary =>
      let st : MainState :=
        { st with BiologyLibrary := BiologyLibrary, EgyptologyLibrary := EgyptologyLibrary }
      some (saveAll FileManager (printSizes st))

/-! ### Libraries behind references -/

/-- An object store: the `Library` object living at each address. -/
abbrev Shelf := Nat → Library

/-- The call `mgr.add_book(Lib, BookName)` where `Lib` is bound to the library
at address `lib`: the body acts on that object in the store. -/
def LibraryManager.add_bookRef (this : LibraryManager) (count : Int) (σ : Shelf) (lib : Nat)
    (BookName : String) : Int × Shelf :=
  let r := this.add_book count (σ lib) BookName
  (r.1, Function.update σ lib r.2)

end SingleResponsibility

/-! ## Liskov Substitution (`1- SOLID Design Prenciples/3- Liskov Substitution Principle/main.cpp`) -/

namespace Liskov

/-- Class `Rectangle`: its two protected `double` data members. -/
structure Rectangle where
  width : Float
  length : Float

/-- Constructor `Rectangle(double w, double l) : width(w), length(l) {}`. -/
def Rectangle.constructor (w l : Float) : Rectangle := { width := w, length := l }

/-- Member `double Rectangle::area() const`, the override of `Shape::area`. -/
def Rectangle.area (this : Rectangle) : Float := this.width * this.length

/-- Member `double Rectangle::getWidth() const`. -/
def Rectangle.getWidth (this : Rectangle) : Float := this.width

/-- Member `double Rectangle::getLength() const`. -/
def Rectangle.getLength (this : Rectangle) : Float := this.length

/-- Class `Square : public Rectangle`; it adds no data member. -/
structure Square extends Rectangle

/-- Constructor `Square(double side) : Rectangle(side, side) {}`. -/
def Square.constructor (side : Float) : Square :=
  { toRectangle := Rectangle.constructor side side }

/-- Member `void Square::setWidth(double side)`: two assignments. -/
def Square.setWidth (this : Square) (side : Float) : Square :=
  let this : Square := { this with width := side }
  let this : Square := { this with length := side }
  this

/-- Member `void Square::setLength(double side)`: two assignments. -/
def Square.setLength (this : Square) (side : Float) : Square :=
  let this : Square := { this with width := side }
  let this : Square := { this with length := side }
  this

/-- An object seen through `const Shape&`: its dynamic type and data. -/
inductive Shape where
  | rectangle (r : Rectangle)
  | square (s : Square)

/-- Virtual `Shape::area()`: both classes use `Rectangle::area`, which `Square`
inherits. -/
def Shape.area : Shape → Float
  | Shape.rectangle r => r.area
  | Shape.square s => s.toRectangle.area

/-- One setter call on a `Square`. -/
inductive SquareCall where
  | setWidth (side : Float)
  | setLength (side : Float)

/-- The side a setter call supplies. -/
def SquareCall.side : SquareCall → Float
  | SquareCall.setWidth side => side
  | SquareCall.setLength side => side

/-- Performs one setter call on a square. -/
def Square.call (this : Square) : SquareCall → Square
  | SquareCall.setWidth side => this.setWidth side
  | SquareCall.setLength side => this.setLength side

/-- Performs a sequence of setter calls on a square, first call first. -/
def Square.run (this : Square) (calls : List SquareCall) : Square :=
  calls.foldl Square.call this

/-- Specification side: the side most recently supplied, by the last setter
call if there is one and by the constructor otherwise. -/
def lastSide (side : Float) (calls : List SquareCall) : Float :=
  match calls.getLast? with
  | some call => call.side
  | none => side

end Liskov

/-! ## Dependency Inversion (`1- SOLID Design Prenciples/5- Dependency Inversion Principle/main.cpp`) -/

namespace DependencyInversion

/-- Abstract class `DatabaseInterface`: an implementation is an object with
state of some type `σ` and its override of the virtual `saveData(const
std::string& data)`, which may change the object and write to `std::cout`. -/
structure DatabaseInterface (σ : Type) where
  saveData : σ → String → String → σ × String

/-- Class `Database`: it has no data member, and `saveData` writes one line. -/
def Database : DatabaseInterface Unit where
  saveData := fun this data cout => (this, endl (cout ++ "Saving data to database: " ++ data))

/-- Class `BusinessLogic`: the injected pointer `database`, which gives the
dynamic type of the pointee; the pointee's state lives outside the object. -/
structure BusinessLogic (σ : Type) where
  database : DatabaseInterface σ

/-- Constructor `BusinessLogic(DatabaseInterface* db) : database(db) {}`. -/
def BusinessLogic.constructor {σ : Type} (db : DatabaseInterface σ) : BusinessLogic σ :=
  { database := db }

/-- Member `void BusinessLogic::processData(const std::string& data)`, acting on
the state of the injected object and on `std::cout`. -/
def BusinessLogic.processData {σ : Type} (this : BusinessLogic σ) (data : String)
    (db : σ) (cout : String) : σ × String :=
  let cout := endl (cout ++ "Processing data: " ++ data)
  this.database.saveData db data cout

/-- The function `main` up to `getchar()`: the text written to `std::cout`. -/
def main : String :=
  let concreteDatabase : Unit := ()
  let businessLogic := BusinessLogic.constructor Database
  (businessLogic.processData "Hello, World!" concreteDatabase "").2

/-- A test double for `DatabaseInterface`: its state is the list of calls it
has received, each with the argument and the text on `std::cout` at the time
of the call; it writes nothing itself. -/
def Recorder : DatabaseInterface (List (String × String)) where
  saveData := fun this data cout => (this ++ [(data, cout)], cout)

end DependencyInversion

/-! ## Theorems -/

namespace Factories

/-- C1: `createCar("RaceCar")`, `createCar("OffRoadCar")` and
`createCar("TownCar")` each return a present (non-null) car, and `drive()` on
that car writes exactly the line "Driving a race car!", "Driving an off-road
car!" and "Driving a town car!" respectively to the output stream. -/
theorem createCar_known_drive :
    (∃ car, CarFactory.createCar "RaceCar" = some car ∧
      ∀ cout, car.drive cout = cout ++ "Driving a race car!" ++ "\n") ∧
    (∃ car, CarFactory.createCar "OffRoadCar" = some car ∧
      ∀ cout, car.drive cout = cout ++ "Driving an off-road car!" ++ "\n") ∧
    (∃ car, CarFactory.createCar "TownCar" = some car ∧
      ∀ cout, car.drive cout = cout ++ "Driving a town car!" ++ "\n") := by
  refine ⟨⟨Car.RaceCar, by decide, fun _ => rfl⟩, ⟨Car.OffRoadCar, by decide, fun _ => rfl⟩,
    ⟨Car.TownCar, by decide, fun _ => rfl⟩⟩

/-- C2: for every discriminator string other than exactly "RaceCar",
"OffRoadCar" and "TownCar", `createCar` returns the not-found result (the
null pointer, `none`); the function is total, so it returns on every input. -/
theorem createCar_unknown (carType : String) (h1 : carType ≠ "RaceCar")
    (h2 : carType ≠ "OffRoadCar") (h3 : carType ≠ "TownCar") :
    CarFactory.createCar carType = none := by
  simp [CarFactory.createCar, h1, h2, h3]

/-- Witness for C2 at the discriminators "Unknown", "" and "racecar". -/
theorem createCar_unknown_witness :
    CarFactory.createCar "Unknown" = none ∧ CarFactory.createCar "" = none ∧
      CarFactory.createCar "racecar" = none :=
  ⟨createCar_unknown "Unknown" (by decide) (by decide) (by decide),
   createCar_unknown "" (by decide) (by decide) (by decide),
   createCar_unknown "racecar" (by decide) (by decide) (by decide)⟩

end Factories

namespace Builder

/-! ### Helper lemmas on runs of setter calls -/

theorem run_nil (b : CarBuilder) : b.run [] = b := rfl

theorem run_append_singleton (b : CarBuilder) (calls : List Setter) (s : Setter) :
    b.run (calls ++ [s]) = (b.run calls).call s := by
  simp [CarBuilder.run, List.foldl_append]

theorem lastSet_nil {α : Type} (sel : Setter → Option α) : lastSet sel [] = none := rfl

theorem lastSet_append_singleton {α : Type} (sel : Setter → Option α) (calls : List Setter)
    (s : Setter) : lastSet sel (calls ++ [s]) = (sel s).orElse fun _ => lastSet sel calls := by
  simp only [lastSet, List.reverse_append, List.reverse_cons, List.reverse_nil, List.nil_append,
    List.singleton_append, List.findSome?_cons]
  cases sel s <;> rfl

/-- The scan finds nothing exactly when no call of the sequence is selected. -/
theorem lastSet_eq_none_iff {α : Type} (sel : Setter → Option α) (calls : List Setter) :
    lastSet sel calls = none ↔ ∀ s ∈ calls, sel s = none := by
  simp [lastSet]

/-- The scan returns the value of a selected call when no later call is
selected. -/
theorem lastSet_of_last {α : Type} (sel : Setter → Option α) (pre post : List Setter)
    (s : Setter) (v : α) (hs : sel s = some v) (hpost : ∀ t ∈ post, sel t = none) :
    lastSet sel (pre ++ s :: post) = some v := by
  induction post using List.reverseRecOn with
  | nil => simp [lastSet_append_singleton, hs]
  | append_singleton post t ih =>
    have ht : sel t = none := hpost t (by simp)
    have h := lastSet_append_singleton sel (pre ++ s :: post) t
    rw [List.append_assoc, List.cons_append] at h
    rw [h, ht]
    exact ih fun u hu => hpost u (by simp [hu])

/-- From any starting builder, each field after a run is the last value set for
it, and the starting value if no call targets it. -/
theorem run_fields (b : CarBuilder) (calls : List Setter) :
    (b.run calls).car_ =
      { make_ := (lastSet Setter.make? calls).getD b.car_.make_
        model_ := (lastSet Setter.model? calls).getD b.car_.model_
        year_ := (lastSet Setter.year? calls).getD b.car_.year_
        color_ := (lastSet Setter.color? calls).getD b.car_.color_ } := by
  induction calls using List.reverseRecOn with
  | nil => simp [run_nil, lastSet_nil]
  | append_singleton calls s ih =>
    rw [run_append_singleton]
    simp only [lastSet_append_singleton]
    cases s <;>
      simp [CarBuilder.call, CarBuilder.setMake, CarBuilder.setModel, CarBuilder.setYear,
        CarBuilder.setColor, Car.setMake, Car.setModel, Car.setYear, Car.setColor, ih,
        Setter.make?, Setter.model?, Setter.year?, Setter.color?]

theorem findSome?_filter {α : Type} (sel : Setter → Option α) (p : Setter → Bool)
    (hp : ∀ s, p s = false → sel s = none) (l : List Setter) :
    (l.filter p).findSome? sel = l.findSome? sel := by
  induction l with
  | nil => rfl
  | cons s l ih =>
    cases hs : p s
    · simp [List.filter_cons, hs, List.findSome?_cons, hp s hs, ih]
    · simp [List.filter_cons, hs, List.findSome?_cons, ih]

/-- The last value a selector finds only depends on the calls that target the
selector's field. -/
theorem lastSet_filter {α : Type} (sel : Setter → Option α) (f : Field)
    (hp : ∀ s, s.field ≠ f → sel s = none) (calls : List Setter) :
    lastSet sel (calls.filter fun s => decide (s.field = f)) = lastSet sel calls := by
  unfold lastSet
  rw [← List.filter_reverse]
  exact findSome?_filter sel _ (fun s hs => hp s (by simpa using hs)) _

/-! ### Claims on the builder -/

/-- C3: for every finite sequence of setter calls applied to a fresh
`CarBuilder`, each field of the `Car` returned by `build()` equals the value
passed by the last call of the sequence that targets that field, and the
default (empty string, 0 for the year) if no call targets it. -/
theorem build_last_write_wins (calls : List Setter) :
    ((({} : CarBuilder).run calls).build.1).make_ = (lastSet Setter.make? calls).getD "" ∧
    ((({} : CarBuilder).run calls).build.1).model_ = (lastSet Setter.model? calls).getD "" ∧
    ((({} : CarBuilder).run calls).build.1).year_ = (lastSet Setter.year? calls).getD 0 ∧
    ((({} : CarBuilder).run calls).build.1).color_ = (lastSet Setter.color? calls).getD "" := by
  simp [CarBuilder.build, run_fields]

/-- C4: two setters for different fields commute. For every builder state and
every pair of values, each of the six pairs of distinct setters gives the same
builder state, and the same built `Car`, in either order. -/
theorem setters_commute (b : CarBuilder) (make model color : String) (year : Int) :
    ((b.setMake make).setModel model = (b.setModel model).setMake make ∧
     (b.setMake make).setYear year = (b.setYear year).setMake make ∧
     (b.setMake make).setColor color = (b.setColor color).setMake make ∧
     (b.setModel model).setYear year = (b.setYear year).setModel model ∧
     (b.setModel model).setColor color = (b.setColor color).setModel model ∧
     (b.setYear year).setColor color = (b.setColor color).setYear year) ∧
    (((b.setMake make).setModel model).build.1 = ((b.setModel model).setMake make).build.1 ∧
     ((b.setMake make).setYear year).build.1 = ((b.setYear year).setMake make).build.1 ∧
     ((b.setMake make).setColor color).build.1 = ((b.setColor color).setMake make).build.1 ∧
     ((b.setModel model).setYear year).build.1 = ((b.setYear year).setModel model).build.1 ∧
     ((b.setModel model).setColor color).build.1 = ((b.setColor color).setModel model).build.1 ∧
     ((b.setYear year).setColor color).build.1 = ((b.setColor color).setYear year).build.1) := by
  refine ⟨⟨rfl, rfl, rfl, rfl, rfl, rfl⟩, ⟨rfl, rfl, rfl, rfl, rfl, rfl⟩⟩

/-- C5, the claim as stated fails: the sequence `setMake("Toyota");
setMake("BMW")` and its permutation `setMake("BMW"); setMake("Toyota")` build
different cars from a fresh builder. -/
theorem build_permutation_counterexample :
    List.Perm [Setter.setMake "Toyota", Setter.setMake "BMW"]
        [Setter.setMake "BMW", Setter.setMake "Toyota"] ∧
      (({} : CarBuilder).run [Setter.setMake "BMW", Setter.setMake "Toyota"]).build.1 ≠
        (({} : CarBuilder).run [Setter.setMake "Toyota", Setter.setMake "BMW"]).build.1 :=
  ⟨List.Perm.swap _ _ _, by decide⟩

/-- C5, amended: for every finite sequence of setter calls and every
permutation of it that keeps the calls targeting each single field in their
original relative order, `build()` on a fresh builder after the permuted
sequence returns the same `Car` as after the original sequence. -/
theorem build_permutation_same_field_order (calls calls' : List Setter)
    (hperm : List.Perm calls calls')
    (horder : ∀ f : Field,
      (calls'.filter fun s => decide (s.field = f)) =
        calls.filter fun s => decide (s.field = f)) :
    (({} : CarBuilder).run calls').build.1 = (({} : CarBuilder).run calls).build.1 := by
  have _ := hperm
  have hmake : lastSet Setter.make? calls' = lastSet Setter.make? calls := by
    rw [← lastSet_filter Setter.make? Field.make (by intro s; cases s <;> simp [Setter.field, Setter.make?]) calls',
      ← lastSet_filter Setter.make? Field.make (by intro s; cases s <;> simp [Setter.field, Setter.make?]) calls,
      horder]
  have hmodel : lastSet Setter.model? calls' = lastSet Setter.model? calls := by
    rw [← lastSet_filter Setter.model? Field.model (by intro s; cases s <;> simp [Setter.field, Setter.model?]) calls',
      ← lastSet_filter Setter.model? Field.model (by intro s; cases s <;> simp [Setter.field, Setter.model?]) calls,
      horder]
  have hyear : lastSet Setter.year? calls' = lastSet Setter.year? calls := by
    rw [← lastSet_filter Setter.year? Field.year (by intro s; cases s <;> simp [Setter.field, Setter.year?]) calls',
      ← lastSet_filter Setter.year? Field.year (by intro s; cases s <;> simp [Setter.field, Setter.year?]) calls,
      horder]
  have hcolor : lastSet Setter.color? calls' = lastSet Setter.color? calls := by
    rw [← lastSet_filter Setter.color? Field.color (by intro s; cases s <;> simp [Setter.field, Setter.color?]) calls',
      ← lastSet_filter Setter.color? Field.color (by intro s; cases s <;> simp [Setter.field, Setter.color?]) calls,
      horder]
  simp [CarBuilder.build, run_fields, hmake, hmodel, hyear, hcolor]

/-- Witness for the amended C5: the calls of `main` for `car1`, with the
`setYear` call moved to the front and a second `setMake` kept after the
first. -/
theorem build_permutation_same_field_order_witness :
    (({} : CarBuilder).run
        [Setter.setYear 2023, Setter.setMake "Toyota", Setter.setMake "BMW",
          Setter.setModel "Camry"]).build.1 =
      (({} : CarBuilder).run
        [Setter.setMake "Toyota", Setter.setModel "Camry", Setter.setMake "BMW",
          Setter.setYear 2023]).build.1 :=
  build_permutation_same_field_order
    [Setter.setMake "Toyota", Setter.setModel "Camry", Setter.setMake "BMW", Setter.setYear 2023]
    [Setter.setYear 2023, Setter.setMake "Toyota", Setter.setMake "BMW", Setter.setModel "Camry"]
    (by decide) (by intro f; cases f <;> decide)

/-- C6: every setter returns a reference to the builder it was called on, so
the chained expression `obj.s₁.s₂.s₃` returns that same builder and leaves the
store exactly as the three statements `obj.s₁; obj.s₂; obj.s₃;` do, and
`build()` on the builder afterwards returns the car carrying all three
mutations, applied in call order to the car the builder held before. -/
theorem chained_eq_sequential (σ : Store) (obj : Nat) (s₁ s₂ s₃ : Setter) :
    (CarBuilder.callRef σ obj s₁).2 = obj ∧
    (chained σ obj s₁ s₂ s₃).2 = obj ∧
    (chained σ obj s₁ s₂ s₃).1 = sequential σ obj s₁ s₂ s₃ ∧
    ((chained σ obj s₁ s₂ s₃).1 obj).build.1 =
      ((((σ obj).call s₁).call s₂).call s₃).car_ := by
  refine ⟨rfl, rfl, rfl, ?_⟩
  simp [chained, CarBuilder.callRef, CarBuilder.build]

/-- C7: for every `Car`, `describe()` writes the header line "Car Details:"
followed by exactly the four lines "Make: ", "Model: ", "Year: " and "Color: "
with the field values, the year in decimal, in that order; the car built in
`main` by chained setters with make "Toyota", model "Camry", year 2023 and
colour "Blue" is rendered with exactly those four values. -/
theorem describe_renders (c : Car) (cout : String) :
    (c.describe cout).2 =
      cout ++ "Car Details:\n" ++ "Make: " ++ c.make_ ++ "\n" ++ "Model: " ++ c.model_ ++ "\n"
        ++ "Year: " ++ toString c.year_ ++ "\n" ++ "Color: " ++ c.color_ ++ "\n" ∧
    car1 = { make_ := "Toyota", model_ := "Camry", year_ := 2023, color_ := "Blue" } ∧
    (car1.describe "").2 =
      "Car Details:\nMake: Toyota\nModel: Camry\nYear: 2023\nColor: Blue\n" := by
  refine ⟨?_, rfl, by decide⟩
  simp [Car.describe, endl, String.append_assoc]

/-- C8: a `Car` obtained from a fresh `CarBuilder` with no setter call has
make, model and colour equal to the empty string and year equal to 0, and
`describe()` renders them as empty text and "0". -/
theorem fresh_build_defaults :
    (({} : CarBuilder).build.1).make_ = "" ∧
    (({} : CarBuilder).build.1).model_ = "" ∧
    (({} : CarBuilder).build.1).year_ = 0 ∧
    (({} : CarBuilder).build.1).color_ = "" ∧
    ((({} : CarBuilder).build.1).describe "").2 =
      "Car Details:\nMake: \nModel: \nYear: 0\nColor: \n" := by
  refine ⟨rfl, rfl, rfl, rfl, by decide⟩

/-- C9: `describe()` is pure and idempotent. For every `Car` there is one text
such that a call of `describe()` leaves the car unchanged and appends that text
to the stream, and a second call right after it again leaves the car unchanged
and appends the identical text. -/
theorem describe_pure_idempotent (c : Car) :
    ∃ text : String, ∀ cout : String,
      (c.describe cout).1 = c ∧
      (c.describe cout).2 = cout ++ text ∧
      ((c.describe cout).1.describe (c.describe cout).2).1 = c ∧
      ((c.describe cout).1.describe (c.describe cout).2).2 = (c.describe cout).2 ++ text := by
  refine ⟨(c.describe "").2, fun cout => ⟨rfl, ?_, rfl, ?_⟩⟩ <;>
    simp only [Car.describe, endl, String.append_assoc, String.empty_append]

/-- C10, the claim as stated fails: after `build()` on a builder configured
with the setter calls `main` makes for `car1`, the builder's internal car is
not reset to the defaults (it still holds the configured car), and a further
`setColor("Red")` returns normally and changes the builder's state. -/
theorem build_post_state_counterexample :
    (((((({} : CarBuilder).setMake "Toyota").setModel "Camry").setYear 2023).setColor
        "Blue").build.2).car_ ≠ ({} : Car) ∧
    (((((({} : CarBuilder).setMake "Toyota").setModel "Camry").setYear 2023).setColor
        "Blue").build.2).car_.color_ = "Blue" ∧
    ((((((({} : CarBuilder).setMake "Toyota").setModel "Camry").setYear 2023).setColor
        "Blue").build.2).setColor "Red").car_.color_ = "Red" := by
  refine ⟨by decide, rfl, rfl⟩

/-- C10, amended: after `build()` the builder is in a defined post-build state,
namely the state it had before the call. Its internal car is the car just
returned (not reset), and every further setter call succeeds and acts exactly
as it would have acted before `build()`, overwriting its field. -/
theorem build_post_state (b : CarBuilder) :
    b.build.2 = b ∧
    b.build.2.car_ = b.build.1 ∧
    (∀ s : Setter, b.build.2.call s = b.call s) ∧
    (∀ make : String, (b.build.2.setMake make).car_ = { b.car_ with make_ := make }) ∧
    (∀ model : String, (b.build.2.setModel model).car_ = { b.car_ with model_ := model }) ∧
    (∀ year : Int, (b.build.2.setYear year).car_ = { b.car_ with year_ := year }) ∧
    (∀ color : String, (b.build.2.setColor color).car_ = { b.car_ with color_ := color }) := by
  refine ⟨rfl, rfl, fun _ => rfl, fun _ => rfl, fun _ => rfl, fun _ => rfl, fun _ => rfl⟩

end Builder

namespace Factories

/-- Every discriminator the factory recognises is one of the three names. -/
theorem createCar_some (k : String) (c : Car) (h : CarFactory.createCar k = some c) :
    (k = "RaceCar" ∧ c = Car.RaceCar) ∨ (k = "OffRoadCar" ∧ c = Car.OffRoadCar) ∨
      (k = "TownCar" ∧ c = Car.TownCar) := by
  unfold CarFactory.createCar at h
  split_ifs at h with h1 h2 h3
  · exact Or.inl ⟨h1, (Option.some.inj h).symm⟩
  · exact Or.inr (Or.inl ⟨h2, (Option.some.inj h).symm⟩)
  · exact Or.inr (Or.inr ⟨h3, (Option.some.inj h).symm⟩)

/-- C11: each concrete variant has a fixed, distinct behaviour. The text
`drive()` writes depends on the variant only: it is the same whatever the
stream already holds, and so the same at every repeated call. The texts of
`RaceCar`, `OffRoadCar` and `TownCar` are pairwise different, and two
recognised discriminators whose cars write the same text are equal. -/
theorem drive_fixed_distinct :
    (∀ (c : Car) (cout : String), c.drive cout = cout ++ c.drive "") ∧
    (∀ (c : Car) (cout : String), c.drive (c.drive cout) = cout ++ c.drive "" ++ c.drive "") ∧
    Car.RaceCar.drive "" ≠ Car.OffRoadCar.drive "" ∧
    Car.RaceCar.drive "" ≠ Car.TownCar.drive "" ∧
    Car.OffRoadCar.drive "" ≠ Car.TownCar.drive "" ∧
    (∀ (k₁ k₂ : String) (c₁ c₂ : Car), CarFactory.createCar k₁ = some c₁ →
      CarFactory.createCar k₂ = some c₂ → c₁.drive "" = c₂.drive "" → k₁ = k₂) := by
  have hfix : ∀ (c : Car) (cout : String), c.drive cout = cout ++ c.drive "" := by
    intro c cout
    cases c <;> simp only [Car.drive, endl, String.append_assoc, String.empty_append]
  refine ⟨hfix, ?_, by decide, by decide, by decide, ?_⟩
  · intro c cout
    rw [hfix c (c.drive cout), hfix c cout]
  · intro k₁ k₂ c₁ c₂ h₁ h₂ h
    rcases createCar_some k₁ c₁ h₁ with ⟨hk₁, hc₁⟩ | ⟨hk₁, hc₁⟩ | ⟨hk₁, hc₁⟩ <;>
      rcases createCar_some k₂ c₂ h₂ with ⟨hk₂, hc₂⟩ | ⟨hk₂, hc₂⟩ | ⟨hk₂, hc₂⟩ <;>
      subst hk₁ hc₁ hk₂ hc₂ <;>
      first
        | rfl
        | exact absurd h (by decide)

/-- Witness for C11: the discriminators "TownCar" and "TownCar" give cars with
the same text, and are equal. -/
theorem drive_fixed_distinct_witness : "TownCar" = "TownCar" :=
  drive_fixed_distinct.2.2.2.2.2 "TownCar" "TownCar" Car.TownCar Car.TownCar
    (by decide) (by decide) rfl

end Factories

namespace Singleton

set_option maxRecDepth 20000

/-- C12: constructing a `SingleTon` while the instance counter is already at
least 1 writes "Error: Only one instance of SingleTon is allowed." to
`std::cerr`, runs the destructor on the new object (which writes "Instance
destroyed." and takes the counter back) and terminates the process with exit
status 69 instead of returning. So `main` ends at `SingleTon second;` with
status 69, and "After Exception" appears nowhere in its output. -/
theorem constructor_second_exits (w : World) (h : 1 ≤ w.Instances) :
    SingleTon.constructor w =
      Outcome.exited 69
        (SingleTon.destructor { elem1 := 0, elem2 := 0 }
          { Instances := w.Instances + 1, cout := w.cout,
            cerr := w.cerr ++ "Error: Only one instance of SingleTon is allowed." ++ "\n" }) ∧
    SingleTon.constructor w =
      Outcome.exited 69
        { Instances := w.Instances, cout := w.cout ++ "Instance destroyed." ++ "\n",
          cerr := w.cerr ++ "Error: Only one instance of SingleTon is allowed." ++ "\n" } ∧
    main {} =
      (69, { Instances := 1,
             cout := "Instance created. Instances: 1\nelem1 = 0\nelem2 = 0\nBefore Exception\nInstance destroyed.\n",
             cerr := "Error: Only one instance of SingleTon is allowed.\n" }) ∧
    ¬ ("After Exception".data <:+: (main {}).2.cout.data) := by
  have hgt : w.Instances + 1 > 1 := by omega
  refine ⟨?_, ?_, by decide, by decide⟩
  · simp only [SingleTon.constructor, hgt, if_true, endl]
  · simp only [SingleTon.constructor, hgt, if_true, endl, SingleTon.destructor,
      Int.add_sub_cancel]

/-- Witness for C12: the state right before `SingleTon second;` in `main`. -/
theorem constructor_second_exits_witness :
    SingleTon.constructor
        { Instances := 1,
          cout := "Instance created. Instances: 1\nelem1 = 0\nelem2 = 0\nBefore Exception\n",
          cerr := "" } =
      Outcome.exited 69
        { Instances := 1,
          cout := "Instance created. Instances: 1\nelem1 = 0\nelem2 = 0\nBefore Exception\n"
            ++ "Instance destroyed." ++ "\n",
          cerr := "" ++ "Error: Only one instance of SingleTon is allowed." ++ "\n" } :=
  (constructor_second_exits
    { Instances := 1,
      cout := "Instance created. Instances: 1\nelem1 = 0\nelem2 = 0\nBefore Exception\n",
      cerr := "" } (by decide)).2.1

/-! ### The instance counter along a run -/

/-- An event other than a copy keeps the counter in step with the live
objects. -/
theorem step_counted (s s' : Sys) (op : Op) (hs : Counted s) (hop : op ≠ Op.copy)
    (h : step s op = Run.running s') : Counted s' := by
  obtain ⟨hc, hl⟩ := hs
  cases op with
  | construct =>
    by_cases hgt : s.w.Instances + 1 > 1
    · simp [step, SingleTon.constructor, hgt] at h
    · simp only [step, SingleTon.constructor, hgt, if_false] at h
      injection h with h
      subst h
      have h0 : s.live.length = 0 := by omega
      constructor
      · simp only [List.length_cons, h0]
        omega
      · simp [h0]
  | copy => exact absurd rfl hop
  | destroy =>
    cases hlive : s.live with
    | nil => simp [step, hlive] at h
    | cons obj rest =>
      simp only [step, hlive] at h
      injection h with h
      subst h
      rw [hlive] at hc hl
      simp only [List.length_cons] at hc hl
      constructor
      · show s.w.Instances - 1 = (rest.length : Int)
        omega
      · show rest.length ≤ 1
        omega

/-- Along a run without copies the counter stays in step with the live
objects. -/
theorem run_counted (ops : List Op) (s₀ s : Sys) (hs : Counted s₀) (hops : Op.copy ∉ ops)
    (h : run (Run.running s₀) ops = Run.running s) : Counted s := by
  induction ops generalizing s₀ with
  | nil =>
    simp only [run] at h
    injection h with h
    exact h ▸ hs
  | cons op ops ih =>
    simp only [run] at h
    have hop : op ≠ Op.copy := fun e => hops (by simp [e])
    have hrest : Op.copy ∉ ops := fun m => hops (List.mem_cons_of_mem _ m)
    cases hstep : step s₀ op with
    | running s₁ =>
      rw [hstep] at h
      exact ih s₁ (step_counted s₀ s₁ op hs hop hstep) hrest h
    | terminated status w =>
      rw [hstep] at h
      cases ops <;> simp [run] at h
    | invalid =>
      rw [hstep] at h
      cases ops <;> simp [run] at h

/-- The path through the constructor `SingleTon()` counts correctly. Start with
no live object and `Instances = 0`; in every state reached by constructions
with `SingleTon()` and destructions, without copies, that has not terminated,
`Instances` equals the number of live objects and is at most 1, and the first
construction succeeds with `Instances = 1` and `elem1 = elem2 = 0`. -/
theorem instances_invariant_without_copy (ops : List Op) (s₀ s : Sys)
    (h₀ : s₀.w.Instances = 0) (hlive : s₀.live = []) (hops : Op.copy ∉ ops)
    (h : run (Run.running s₀) ops = Run.running s) :
    s.w.Instances = s.live.length ∧ s.w.Instances ≤ 1 ∧
    step s₀ Op.construct =
      Run.running
        { w := { Instances := 1, cout := s₀.w.cout ++ "Instance created. Instances: " ++ "1" ++ "\n",
                 cerr := s₀.w.cerr },
          live := [{ elem1 := 0, elem2 := 0 }] } := by
  have hc : Counted s := run_counted ops s₀ s (by simp [Counted, h₀, hlive]) hops h
  refine ⟨hc.1, ?_, ?_⟩
  · have := hc.1
    have := hc.2
    omega
  · have hle : ¬ ((0 : Int) + 1 > 1) := by decide
    simp only [step, SingleTon.constructor, h₀, hlive, endl, hle, if_false]
    rfl

/-- The run construct, destroy, construct again from the initial state of the
program satisfies the hypotheses of the invariant without copies. -/
theorem instances_invariant_without_copy_example :
    (1 : Int) = ([({ elem1 := 0, elem2 := 0 } : SingleTon)].length : Int) ∧ (1 : Int) ≤ 1 :=
  let h := instances_invariant_without_copy [Op.construct, Op.destroy, Op.construct] {}
    { w := { Instances := 1,
             cout := "Instance created. Instances: 1\nInstance destroyed.\nInstance created. Instances: 1\n",
             cerr := "" },
      live := [{ elem1 := 0, elem2 := 0 }] } rfl rfl (by decide) (by decide)
  ⟨h.1, h.2.1⟩

/-- C13, where the code departs from the claim: a copy construction is not
counted. After `SingleTon a; SingleTon b(a);` the program is still running with
two live objects and `Instances = 1`; after `SingleTon a; { SingleTon b(a); }
SingleTon c;` the third construction succeeds, again with two live objects and
`Instances = 1`; and once `a` and its copy are both destroyed `Instances` is
-1 with no live object. -/
theorem copy_construction_uncounted :
    run (Run.running {}) [Op.construct, Op.copy] =
      Run.running
        { w := { Instances := 1, cout := "Instance created. Instances: 1\n", cerr := "" },
          live := [{ elem1 := 0, elem2 := 0 }, { elem1 := 0, elem2 := 0 }] } ∧
    run (Run.running {}) [Op.construct, Op.copy, Op.destroy, Op.construct] =
      Run.running
        { w := { Instances := 1,
                 cout := "Instance created. Instances: 1\nInstance destroyed.\nInstance created. Instances: 1\n",
                 cerr := "" },
          live := [{ elem1 := 0, elem2 := 0 }, { elem1 := 0, elem2 := 0 }] } ∧
    run (Run.running {}) [Op.construct, Op.copy, Op.destroy, Op.destroy] =
      Run.running
        { w := { Instances := -1,
                 cout := "Instance created. Instances: 1\nInstance destroyed.\nInstance destroyed.\n",
                 cerr := "" },
          live := [] } := by
  refine ⟨by decide, by decide, by decide⟩

end Singleton

namespace SingleResponsibility

/-- Removing the last element right after appending one gives the vector back. -/
theorem pop_back_push_back (v : List String) (x : String) :
    pop_back (push_back v x) = some v := by
  unfold pop_back push_back
  simp only [List.dropLast_concat]
  split
  · next h => simp at h
  · rfl

/-- C14: for every library and every book name, `add_book` appends the name as
the new last element of the library's entries, so the size grows by exactly
one, and leaves the library's `Section` unchanged; in a store of libraries the
call changes the library it is given and no other. In `main`, three adds to
each of the three libraries give size 3 for each. -/
theorem add_book_appends (mgr : LibraryManager) (count : Int) (σ : Shelf) (lib : Nat)
    (BookName : String) :
    (mgr.add_book count (σ lib) BookName).2.entries = (σ lib).entries ++ [BookName] ∧
    (mgr.add_book count (σ lib) BookName).2.entries.length = (σ lib).entries.length + 1 ∧
    (mgr.add_book count (σ lib) BookName).2.entries.getLast? = some BookName ∧
    (mgr.add_book count (σ lib) BookName).2.Section = (σ lib).Section ∧
    (mgr.add_bookRef count σ lib BookName).2 lib = (mgr.add_book count (σ lib) BookName).2 ∧
    (∀ other : Nat, other ≠ lib → (mgr.add_bookRef count σ lib BookName).2 other = σ other) ∧
    mainAdds.BiologyLibrary.entries.length = 3 ∧
    mainAdds.MechanicsLibrary.entries.length = 3 ∧
    mainAdds.EgyptologyLibrary.entries.length = 3 := by
  refine ⟨rfl, ?_, ?_, rfl, ?_, ?_, by decide, by decide, by decide⟩
  · simp [LibraryManager.add_book, push_back]
  · simp [LibraryManager.add_book, push_back]
  · simp [LibraryManager.add_bookRef]
  · intro other hne
    simp [LibraryManager.add_bookRef, Function.update, hne]

/-- Witness for C14: adding to the library at address 0 leaves the library at
address 1 as it was. -/
theorem add_book_appends_witness :
    ((LibraryManager.constructor "Books & Sections Manager" 6969).add_bookRef 0
        (fun a => if a = 0 then Library.constructor "Biology" else Library.constructor "Mechanics")
        0 "Book 1 in Biology").2 1 = Library.constructor "Mechanics" :=
  (add_book_appends (LibraryManager.constructor "Books & Sections Manager" 6969) 0
    (fun a => if a = 0 then Library.constructor "Biology" else Library.constructor "Mechanics")
    0 "Book 1 in Biology").2.2.2.2.2.1 1 (by decide)

/-- C15: for every library whose entries are non-empty, `remove_last_book`
succeeds (the undefined case of `pop_back` is not reached), removes exactly the
last entry and keeps the remaining prefix and the `Section` unchanged; applied
right after `add_book` it restores the original library. In `main` the sizes go
from 3, 3, 3 to 2, 3, 2. -/
theorem remove_last_book_removes_last (mgr : LibraryManager) (Lib : Library)
    (h : Lib.entries ≠ []) :
    (∃ (pre : List String) (last : String), Lib.entries = pre ++ [last] ∧
      mgr.remove_last_book Lib = some { Section := Lib.Section, entries := pre }) ∧
    (∀ (count : Int) (BookName : String),
      mgr.remove_last_book (mgr.add_book count Lib BookName).2 = some Lib) ∧
    (mainAdds.BiologyLibrary.entries.length, mainAdds.MechanicsLibrary.entries.length,
      mainAdds.EgyptologyLibrary.entries.length) = (3, 3, 3) ∧
    main.map (fun st => (st.BiologyLibrary.entries.length, st.MechanicsLibrary.entries.length,
      st.EgyptologyLibrary.entries.length)) = some (2, 3, 2) := by
  refine ⟨?_, ?_, by decide, by decide⟩
  · refine ⟨Lib.entries.dropLast, Lib.entries.getLast h, ?_, ?_⟩
    · exact (List.dropLast_append_getLast h).symm
    · cases he : Lib.entries with
      | nil => exact absurd he h
      | cons x xs => simp [LibraryManager.remove_last_book, pop_back, he]
  · intro count BookName
    simp only [LibraryManager.remove_last_book, LibraryManager.add_book, pop_back_push_back]

/-- Witness for C15: the Biology library of `main` after its three adds. -/
theorem remove_last_book_removes_last_witness :
    ∃ (pre : List String) (last : String), mainAdds.BiologyLibrary.entries = pre ++ [last] ∧
      (LibraryManager.constructor "Books & Sections Manager" 6969).remove_last_book
        mainAdds.BiologyLibrary = some { Section := mainAdds.BiologyLibrary.Section, entries := pre } :=
  (remove_last_book_removes_last (LibraryManager.constructor "Books & Sections Manager" 6969)
    mainAdds.BiologyLibrary (by decide)).1

end SingleResponsibility

namespace Liskov

theorem square_run_append_singleton (sq : Square) (calls : List SquareCall) (c : SquareCall) :
    sq.run (calls ++ [c]) = (sq.run calls).call c := by
  simp [Square.run, List.foldl_append]

/-- After any run both sides of the square are the side most recently
supplied. -/
theorem square_run_sides (side : Float) (calls : List SquareCall) :
    ((Square.constructor side).run calls).width = lastSide side calls ∧
      ((Square.constructor side).run calls).length = lastSide side calls := by
  induction calls using List.reverseRecOn with
  | nil => exact ⟨rfl, rfl⟩
  | append_singleton calls c _ =>
    rw [square_run_append_singleton]
    have hl : lastSide side (calls ++ [c]) = c.side := by simp [lastSide]
    rw [hl]
    cases c <;> exact ⟨rfl, rfl⟩

/-- C16: `Square` maintains the square property. After construction with any
side and after any sequence of `setWidth` and `setLength` calls, `getWidth()`
and `getLength()` return the same value, the side most recently supplied, and
`area()` through the `Shape` interface is that side multiplied by itself. -/
theorem square_sides_equal (side : Float) (calls : List SquareCall) :
    ((Square.constructor side).run calls).getWidth =
      ((Square.constructor side).run calls).getLength ∧
    ((Square.constructor side).run calls).getWidth = lastSide side calls ∧
    ((Square.constructor side).run calls).getLength = lastSide side calls ∧
    (Shape.square ((Square.constructor side).run calls)).area =
      lastSide side calls * lastSide side calls ∧
    (Square.constructor side).getWidth = side ∧ (Square.constructor side).getLength = side := by
  obtain ⟨hw, hl⟩ := square_run_sides side calls
  refine ⟨?_, hw, hl, ?_, rfl, rfl⟩
  · show ((Square.constructor side).run calls).width = ((Square.constructor side).run calls).length
    rw [hw, hl]
  · show ((Square.constructor side).run calls).width * ((Square.constructor side).run calls).length
      = _
    rw [hw, hl]

end Liskov

namespace DependencyInversion

/-- C17: for every data string and every injected implementation of
`DatabaseInterface`, `processData` first writes "Processing data: " followed by
the data and a line end, and then calls the injected `saveData` once, with the
same data: the result is that single call made on the extended stream, and a
recording implementation ends with exactly one new call in its record. With the
concrete `Database` the output is the line "Processing data: d" followed by the
line "Saving data to database: d". -/
theorem processData_emits_then_saves (σ : Type) (db : DatabaseInterface σ) (s : σ)
    (d cout : String) (record : List (String × String)) :
    (BusinessLogic.constructor db).processData d s cout =
      db.saveData s d (cout ++ "Processing data: " ++ d ++ "\n") ∧
    (BusinessLogic.constructor Recorder).processData d record cout =
      (record ++ [(d, cout ++ "Processing data: " ++ d ++ "\n")],
        cout ++ "Processing data: " ++ d ++ "\n") ∧
    ((BusinessLogic.constructor Database).processData d () cout).2 =
      cout ++ "Processing data: " ++ d ++ "\n" ++ "Saving data to database: " ++ d ++ "\n" ∧
    main = "Processing data: Hello, World!\nSaving data to database: Hello, World!\n" := by
  refine ⟨rfl, rfl, rfl, by decide⟩

end DependencyInversion

namespace Builder

/-- C18: `build()` does not modify the builder. For every builder state it
returns a `Car` equal to the builder's internal car and leaves the builder as
it was, so a second `build()` right after returns an equal car; a setter
applied after `build()` leaves the car already returned as it is, and the next
`build()` returns the car with that setter applied. -/
theorem build_keeps_builder (b : CarBuilder) (s : Setter) :
    b.build.1 = b.car_ ∧
    b.build.2 = b ∧
    b.build.2.car_ = b.car_ ∧
    b.build.2.build.1 = b.build.1 ∧
    b.build.2.build.2 = b ∧
    ((b.build.2.call s).build.1 = (b.call s).car_ ∧ b.build.1 = b.car_) := by
  refine ⟨rfl, rfl, rfl, rfl, rfl, rfl, rfl⟩

end Builder
